import Mathlib

/-!
# Verification of the obs-motion detection-and-trigger pipeline

Shallow embedding of the core of the `obs-motion` repository:

* the per-detector cooldown logic of `AudioDetector._detection_loop`
  (src/audio_detector.py, lines 134-138) and `MotionDetector._detection_loop`
  (src/motion_detector.py, lines 101-105), both of which keep their own
  `last_detection_time` field initialised to `0`;
* the audio threshold evaluation of `AudioDetector._detection_loop`
  (src/audio_detector.py, lines 128-153);
* the recording lifecycle of `OBSController` (src/obs_controller.py):
  `start_recording`, `stop_recording` and the `_auto_stop_recording` thread
  body, with the OBS WebSocket backend abstracted as an oracle telling which
  calls raise and what `GetRecordingStatus` reports.

Timestamps (Python `time.time()` values) and signal levels are modelled as
elements of an arbitrary linear ordered ring, covering the reals of the
running program; concrete evaluations instantiate it with `ℤ`-valued
instants, which the kernel can compute with.
-/

namespace ObsMotion

/-- The cooldown state of one detector: the mutable `last_detection_time`
field that `AudioDetector.__init__` (src/audio_detector.py, line 16) and
`MotionDetector.__init__` (src/motion_detector.py, line 23) each initialise
to `0`. -/
structure CooldownState (α : Type) where
  last_detection_time : α
deriving DecidableEq

/-- Initial cooldown state: `self.last_detection_time = 0`. -/
def cooldownInit {α : Type} [LinearOrderedRing α] : CooldownState α := ⟨0⟩

/-- The cooldown check both detection loops perform on a triggered reading:
`if current_time - self.last_detection_time >= COOLDOWN_PERIOD:
self.last_detection_time = current_time` (src/audio_detector.py lines
137-138, src/motion_detector.py lines 104-105).  Returns whether the
detection is accepted (callback invoked) together with the updated state;
a rejected detection leaves `last_detection_time` unchanged. -/
def tryAccept {α : Type} [LinearOrderedRing α] (cooldown : α)
    (s : CooldownState α) (now : α) : Bool × CooldownState α :=
  if now - s.last_detection_time ≥ cooldown then (true, ⟨now⟩) else (false, s)

/-- Run the cooldown check over a sequence of trigger instants, returning the
accept/reject verdict of each instant and the final state. -/
def runGate {α : Type} [LinearOrderedRing α] (cooldown : α)
    (s : CooldownState α) : List α → List Bool × CooldownState α
  | [] => ([], s)
  | t :: ts =>
    let r := tryAccept cooldown s t
    let rest := runGate cooldown r.2 ts
    (r.1 :: rest.1, rest.2)

/-- If every instant of `ts` is less than `cooldown` after the stored
`last_detection_time`, the gate rejects all of `ts` and its state never
changes. -/
lemma runGate_all_rejected {α : Type} [LinearOrderedRing α] (cooldown a : α)
    (ts : List α) (h : ∀ t ∈ ts, t - a < cooldown) :
    runGate cooldown ⟨a⟩ ts = (ts.map fun _ => false, ⟨a⟩) := by
  induction ts with
  | nil => rfl
  | cons t ts ih =>
    have ht : ¬ (t - a ≥ cooldown) := not_le.mpr (h t (by simp))
    simp [runGate, tryAccept, ht, ih fun u hu => h u (by simp [hu])]

/-- Which detector a trigger comes from. -/
inductive DetSource
  | audio
  | motion
deriving DecidableEq

/-- The combined cooldown state of the two detectors the application runs:
`AudioDetector` and `MotionDetector` each carry their own
`last_detection_time` field (src/audio_detector.py line 16,
src/motion_detector.py line 23); nothing in the source shares a timestamp
between them. -/
structure DetectorsState (α : Type) where
  audioLast : α
  motionLast : α
deriving DecidableEq

/-- Both detectors start with `last_detection_time = 0`. -/
def detectorsInit {α : Type} [LinearOrderedRing α] : DetectorsState α := ⟨0, 0⟩

/-- One triggered reading processed by the owning detector's loop: the audio
loop compares against and updates only `AudioDetector.last_detection_time`
(src/audio_detector.py lines 135-138), the motion loop only
`MotionDetector.last_detection_time` (src/motion_detector.py lines 102-105).
Returns whether the trigger callback is invoked, with the updated state. -/
def detectorStep {α : Type} [LinearOrderedRing α] (cooldown : α)
    (src : DetSource) (s : DetectorsState α) (now : α) :
    Bool × DetectorsState α :=
  match src with
  | .audio =>
    if now - s.audioLast ≥ cooldown then (true, { s with audioLast := now })
    else (false, s)
  | .motion =>
    if now - s.motionLast ≥ cooldown then (true, { s with motionLast := now })
    else (false, s)

/-- Run a sequence of triggered readings, tagged with their source detector,
through the two per-detector cooldown checks; returns each reading's
accept/reject verdict. -/
def runDetectors {α : Type} [LinearOrderedRing α] (cooldown : α)
    (s : DetectorsState α) : List (DetSource × α) → List Bool
  | [] => []
  | (src, t) :: evs =>
    let r := detectorStep cooldown src s t
    r.1 :: runDetectors cooldown r.2 evs

/-- C4 counterexample: with cooldown 30 and trigger instants 100, 129, 158 —
strictly increasing with every consecutive gap below the cooldown — the gate
accepts the first AND the third instant, not "exactly one, namely t_1": a
rejected instant does not move `last_detection_time`, so a chain of
sub-cooldown gaps can drift past the window of the last accepted instant. -/
theorem C4_consecutive_gaps_counterexample :
    ((100:ℤ) < 129 ∧ (129:ℤ) < 158 ∧
      (129:ℤ) - 100 < 30 ∧ (158:ℤ) - 129 < 30) ∧
    (runGate (30:ℤ) cooldownInit [100, 129, 158]).1 = [true, false, true] ∧
    (runGate (30:ℤ) cooldownInit [100, 129, 158]).1 ≠ [true, false, false] := by
  decide

/-- C4 (amended): if the first instant `t1` is at least `cooldown` after the
initial `last_detection_time = 0` and every later instant of the strictly
increasing sequence falls within `cooldown` of `t1` (not merely of its
predecessor), the gate accepts exactly `t1`, rejects all others, and the
rejected instants leave `last_detection_time` at `t1`. -/
theorem C4_window_single_acceptance {α : Type} [LinearOrderedRing α]
    (cooldown t1 : α) (ts : List α)
    (_hchain : List.Chain' (· < ·) (t1 :: ts))
    (h1 : cooldown ≤ t1)
    (h2 : ∀ t ∈ ts, t - t1 < cooldown) :
    runGate cooldown cooldownInit (t1 :: ts) =
      (true :: ts.map fun _ => false, ⟨t1⟩) := by
  have h0 : t1 - (0:α) ≥ cooldown := by simpa using h1
  simp [runGate, tryAccept, cooldownInit, h0, h1,
    runGate_all_rejected cooldown t1 ts h2]

/-- C4 witness: cooldown 30, instants 100, 105, 120, all within the window
of the first; only the first is accepted. -/
theorem C4_window_single_acceptance_witness :
    (List.Chain' (· < ·) [(100:ℤ), 105, 120] ∧ (30:ℤ) ≤ 100 ∧
      ∀ t ∈ [(105:ℤ), 120], t - 100 < 30) ∧
    runGate (30:ℤ) cooldownInit [100, 105, 120] =
      (true :: [(105:ℤ), 120].map fun _ => false, ⟨100⟩) :=
  ⟨⟨by simp, by decide, by decide⟩,
    C4_window_single_acceptance 30 100 [105, 120]
      (by simp) (by decide) (by decide)⟩

/-- C7 counterexample: `last_detection_time` is initialised to `0`, not to
minus infinity — the first-ever detection at instant 10 with cooldown 30 is
rejected (10 - 0 < 30), so the initial state is not equivalent to "never"
and the first-ever detection is not always accepted. -/
theorem C7_init_counterexample :
    (tryAccept (30:ℤ) cooldownInit 10).1 = false ∧
    tryAccept (30:ℤ) cooldownInit 10 = (false, cooldownInit) := by
  decide

/-- C7 (amended): from the initial state (`last_detection_time = 0`) the
first detection at instant `t` is accepted precisely when `t` is at least
the cooldown period after the epoch; real wall-clock instants satisfy this,
an instant below the cooldown period does not. -/
theorem C7_first_detection_accepted_iff {α : Type} [LinearOrderedRing α]
    (cooldown t : α) :
    (tryAccept cooldown cooldownInit t).1 = true ↔ cooldown ≤ t := by
  simp only [tryAccept, cooldownInit, sub_zero, ge_iff_le]
  split <;> simp_all

/-- C1 counterexample: the two detectors keep separate
`last_detection_time` fields, so with cooldown 30 an audio trigger at
instant 100 and a motion trigger at instant 101 — inside the same cooldown
window — are BOTH accepted, invoking the trigger callback twice. -/
theorem C1_shared_gate_counterexample :
    ((101:ℤ) - 100 < 30) ∧
    runDetectors (30:ℤ) detectorsInit [(.audio, 100), (.motion, 101)] =
      [true, true] := by
  decide

/-- C1 (amended): the cooldown gate is per-sampler, not shared: an accepted
audio trigger updates only the audio detector's `last_detection_time`,
leaving the motion gate untouched, so whenever both gates are open each
sampler's trigger is accepted — in particular an audio and a motion
detection inside one cooldown window can yield two accepted detections. -/
theorem C1_per_sampler_gates {α : Type} [LinearOrderedRing α]
    (cooldown ta tm : α) (s : DetectorsState α)
    (ha : cooldown ≤ ta - s.audioLast) (hm : cooldown ≤ tm - s.motionLast) :
    (detectorStep cooldown .audio s ta).1 = true ∧
    (detectorStep cooldown .audio s ta).2.motionLast = s.motionLast ∧
    (detectorStep cooldown .motion (detectorStep cooldown .audio s ta).2 tm).1
      = true ∧
    (detectorStep cooldown .motion (detectorStep cooldown .audio s ta).2 tm).2
      = ⟨ta, tm⟩ := by
  simp [detectorStep, ha, hm]

/-- C1 witness: cooldown 30, audio trigger at 100 and motion trigger at 101
(inside the audio trigger's cooldown window): both accepted. -/
theorem C1_per_sampler_gates_witness :
    ((30:ℤ) ≤ 100 - (detectorsInit : DetectorsState ℤ).audioLast ∧
      (30:ℤ) ≤ 101 - (detectorsInit : DetectorsState ℤ).motionLast ∧
      (101:ℤ) - 100 < 30) ∧
    ((detectorStep (30:ℤ) .audio detectorsInit 100).1 = true ∧
      (detectorStep (30:ℤ) .audio detectorsInit 100).2.motionLast =
        (detectorsInit : DetectorsState ℤ).motionLast ∧
      (detectorStep (30:ℤ) .motion
        (detectorStep (30:ℤ) .audio detectorsInit 100).2 101).1 = true ∧
      (detectorStep (30:ℤ) .motion
        (detectorStep (30:ℤ) .audio detectorsInit 100).2 101).2 = ⟨100, 101⟩) :=
  ⟨⟨by decide, by decide, by decide⟩,
    C1_per_sampler_gates 30 100 101 detectorsInit (by decide) (by decide)⟩

/-- The mutable state of `OBSController` relevant to the recording
lifecycle: the `self.is_recording` flag (src/obs_controller.py line 13). -/
structure OBSState where
  is_recording : Bool
deriving DecidableEq

/-- Oracle for the OBS WebSocket backend's behaviour during one
`start_recording` call: whether `ws.call(requests.GetRecordingStatus())`
raises, what it reports when it succeeds, and whether
`ws.call(requests.StartRecording())` raises. -/
structure Backend where
  statusRaises : Bool
  obsIsRecording : Bool
  startRaises : Bool
deriving DecidableEq

/-- Everything observable about one `OBSController.start_recording` call
(src/obs_controller.py lines 38-67): its return value, the controller state
afterwards, how many `GetRecordingStatus` and `StartRecording` backend calls
were issued, and whether an auto-stop thread was spawned. -/
structure StartResult where
  ret : Bool
  state : OBSState
  statusCalls : Nat
  startCalls : Nat
  timerArmed : Bool
deriving DecidableEq

/-- `OBSController.start_recording` (src/obs_controller.py lines 38-67):
if `self.is_recording` it returns `False` touching nothing; otherwise it
queries `GetRecordingStatus` (an exception is caught, returning `False`);
if OBS reports an active recording it returns `False`; otherwise it issues
`StartRecording` (an exception is caught, returning `False`); on success it
sets `is_recording = True`, spawns the `_auto_stop_recording` daemon thread
and returns `True`. -/
def start_recording (s : OBSState) (b : Backend) : StartResult :=
  if s.is_recording then
    { ret := false, state := s, statusCalls := 0, startCalls := 0,
      timerArmed := false }
  else if b.statusRaises then
    { ret := false, state := s, statusCalls := 1, startCalls := 0,
      timerArmed := false }
  else if b.obsIsRecording then
    { ret := false, state := s, statusCalls := 1, startCalls := 0,
      timerArmed := false }
  else if b.startRaises then
    { ret := false, state := s, statusCalls := 1, startCalls := 1,
      timerArmed := false }
  else
    { ret := true, state := { is_recording := true }, statusCalls := 1,
      startCalls := 1, timerArmed := true }

/-- Everything observable about one `OBSController.stop_recording` call
(src/obs_controller.py lines 69-86): its return value, the controller state
afterwards, and how many `StopRecording` backend calls were issued. -/
structure StopResult where
  ret : Bool
  state : OBSState
  stopCalls : Nat
deriving DecidableEq

/-- `OBSController.stop_recording` (src/obs_controller.py lines 69-86):
if `self.is_recording` is false it returns `False` without any backend
call; otherwise it issues `ws.call(requests.StopRecording())` — if that
raises, the exception is caught and `False` returned with `is_recording`
STILL `True` (line 77 is skipped); on success `is_recording` is cleared and
`True` returned. -/
def stop_recording (s : OBSState) (stopRaises : Bool) : StopResult :=
  if !s.is_recording then
    { ret := false, state := s, stopCalls := 0 }
  else if stopRaises then
    { ret := false, state := s, stopCalls := 1 }
  else
    { ret := true, state := { is_recording := false }, stopCalls := 1 }

/-- The body of the `_auto_stop_recording` daemon thread after its
`time.sleep(RECORDING_DURATION)` (src/obs_controller.py lines 88-97): it
simply calls `self.stop_recording()` and discards the result;
`stop_recording` catches its own exceptions, so the surrounding
`try/except` adds nothing. -/
def auto_stop_recording (s : OBSState) (stopRaises : Bool) : StopResult :=
  stop_recording s stopRaises

/-- C2 counterexample: the auto-stop handler fires while recording and the
backend `StopRecording` call raises — `stop_recording` catches the
exception BEFORE the `self.is_recording = False` assignment, so after the
handler completes the session is still `Recording` (`is_recording = true`),
not `Idle` as the claim requires for every backend outcome. -/
theorem C2_auto_stop_counterexample :
    (auto_stop_recording ⟨true⟩ true).state.is_recording = true ∧
    (auto_stop_recording ⟨true⟩ true).stopCalls = 1 := by
  decide

/-- C2 (amended): when the auto-stop handler runs in state `Recording` it
issues exactly one backend `StopRecording` call; if that call succeeds the
session transitions to `Idle` (`is_recording = false`), but if it raises
the failure is only logged and the session REMAINS `Recording`
(`is_recording` equals the raise flag afterwards). -/
theorem C2_auto_stop_outcome (s : OBSState) (stopRaises : Bool)
    (h : s.is_recording = true) :
    (auto_stop_recording s stopRaises).stopCalls = 1 ∧
    (auto_stop_recording s stopRaises).state.is_recording = stopRaises := by
  cases stopRaises <;> simp [auto_stop_recording, stop_recording, h]

/-- C2 witness: auto-stop while recording with a non-raising backend stops
the recording with one backend call. -/
theorem C2_auto_stop_outcome_witness :
    ((⟨true⟩ : OBSState).is_recording = true) ∧
    ((auto_stop_recording ⟨true⟩ false).stopCalls = 1 ∧
      (auto_stop_recording ⟨true⟩ false).state.is_recording = false) :=
  ⟨rfl, C2_auto_stop_outcome ⟨true⟩ false rfl⟩

/-- C10: `stop_recording` called while `is_recording` is false returns
`False`, performs no backend `StopRecording` call, and leaves the
controller state unchanged. -/
theorem C10_stop_when_idle_noop (s : OBSState) (stopRaises : Bool)
    (h : s.is_recording = false) :
    stop_recording s stopRaises = ⟨false, s, 0⟩ := by
  simp [stop_recording, h]

/-- C10 witness: stopping from the idle state is a no-op failure. -/
theorem C10_stop_when_idle_noop_witness :
    ((⟨false⟩ : OBSState).is_recording = false) ∧
    stop_recording ⟨false⟩ true = ⟨false, ⟨false⟩, 0⟩ :=
  ⟨rfl, C10_stop_when_idle_noop ⟨false⟩ true rfl⟩

/-- C5: two `start_recording` calls in immediate succession, the first from
`is_recording = false` and succeeding (so the second runs with
`is_recording = true`), issue exactly one backend `StartRecording` call in
total: the second call returns `False` at the `if self.is_recording` guard
without any backend interaction and without touching the state. -/
theorem C5_double_detection_single_start (s : OBSState) (b1 b2 : Backend)
    (h0 : s.is_recording = false)
    (h1 : (start_recording s b1).state.is_recording = true) :
    (start_recording s b1).startCalls = 1 ∧
    (start_recording (start_recording s b1).state b2).ret = false ∧
    (start_recording (start_recording s b1).state b2).startCalls = 0 ∧
    (start_recording (start_recording s b1).state b2).statusCalls = 0 ∧
    (start_recording (start_recording s b1).state b2).state =
      (start_recording s b1).state := by
  cases hs : b1.statusRaises <;> cases ho : b1.obsIsRecording <;>
    cases ht : b1.startRaises <;>
    simp_all [start_recording]

/-- C5 witness: a fully cooperative backend; the first call starts the
recording, the second is a backend-free failure. -/
theorem C5_double_detection_single_start_witness :
    ((⟨false⟩ : OBSState).is_recording = false ∧
      (start_recording ⟨false⟩ ⟨false, false, false⟩).state.is_recording =
        true) ∧
    ((start_recording ⟨false⟩ ⟨false, false, false⟩).startCalls = 1 ∧
      (start_recording
        (start_recording ⟨false⟩ ⟨false, false, false⟩).state
        ⟨false, false, false⟩).ret = false ∧
      (start_recording
        (start_recording ⟨false⟩ ⟨false, false, false⟩).state
        ⟨false, false, false⟩).startCalls = 0 ∧
      (start_recording
        (start_recording ⟨false⟩ ⟨false, false, false⟩).state
        ⟨false, false, false⟩).statusCalls = 0 ∧
      (start_recording
        (start_recording ⟨false⟩ ⟨false, false, false⟩).state
        ⟨false, false, false⟩).state =
        (start_recording ⟨false⟩ ⟨false, false, false⟩).state) :=
  ⟨⟨rfl, rfl⟩,
    C5_double_detection_single_start ⟨false⟩ ⟨false, false, false⟩
      ⟨false, false, false⟩ rfl rfl⟩

/-- C6: a detection while `is_recording` is false and OBS itself reports an
active recording (`GetRecordingStatus` succeeds with `isRecording = true`)
returns the failure value `False`, issues no `StartRecording` call, arms no
auto-stop thread, and leaves the controller state unchanged. -/
theorem C6_out_of_band_recording_guard (s : OBSState) (b : Backend)
    (h0 : s.is_recording = false) (h1 : b.statusRaises = false)
    (h2 : b.obsIsRecording = true) :
    start_recording s b = ⟨false, s, 1, 0, false⟩ := by
  simp [start_recording, h0, h1, h2]

/-- C6 witness: OBS already recording out of band; the detection is
refused without a backend start. -/
theorem C6_out_of_band_recording_guard_witness :
    ((⟨false⟩ : OBSState).is_recording = false ∧
      (⟨false, true, false⟩ : Backend).statusRaises = false ∧
      (⟨false, true, false⟩ : Backend).obsIsRecording = true) ∧
    start_recording ⟨false⟩ ⟨false, true, false⟩ = ⟨false, ⟨false⟩, 1, 0, false⟩ :=
  ⟨⟨rfl, rfl, rfl⟩,
    C6_out_of_band_recording_guard ⟨false⟩ ⟨false, true, false⟩ rfl rfl rfl⟩

/-- One event of an execution of the recording lifecycle: an accepted
detection reaching `start_recording`, a manual `stop_recording` call, or a
spawned `_auto_stop_recording` daemon thread waking up after its sleep.
Each event carries the backend oracle for its backend calls. -/
inductive SysEvent
  | detect (b : Backend)
  | manual_stop (stopRaises : Bool)
  | timer_fire (stopRaises : Bool)
deriving DecidableEq

/-- Execution state for the recording lifecycle: the controller state, the
number of `_auto_stop_recording` daemon threads still pending (spawned by a
successful start and never cancelled — `stop_recording` explicitly leaves
them to "finish naturally", src/obs_controller.py lines 78-80), and the
cumulative backend `StartRecording` / `StopRecording` call counts. -/
structure SysState where
  obs : OBSState
  pendingTimers : Nat
  startCalls : Nat
  stopCalls : Nat
deriving DecidableEq

/-- Initial execution state: idle, no pending timers, no backend calls. -/
def sysInit : SysState := ⟨⟨false⟩, 0, 0, 0⟩

/-- Effect of one event.  A `timer_fire` is only possible when a spawned
auto-stop thread is pending; it runs `_auto_stop_recording`, which calls
`stop_recording` unconditionally — the source has no generation counter or
cancellation, so a stale thread behaves exactly like a fresh one. -/
def sysStep (s : SysState) : SysEvent → SysState
  | .detect b =>
    let r := start_recording s.obs b
    { obs := r.state,
      pendingTimers := s.pendingTimers + (if r.timerArmed then 1 else 0),
      startCalls := s.startCalls + r.startCalls,
      stopCalls := s.stopCalls }
  | .manual_stop sr =>
    let r := stop_recording s.obs sr
    { s with obs := r.state, stopCalls := s.stopCalls + r.stopCalls }
  | .timer_fire sr =>
    if s.pendingTimers = 0 then s
    else
      let r := auto_stop_recording s.obs sr
      { s with
          obs := r.state
          pendingTimers := s.pendingTimers - 1
          stopCalls := s.stopCalls + r.stopCalls }

/-- Run a sequence of events from a starting execution state. -/
def sysRun (s : SysState) : List SysEvent → SysState
  | [] => s
  | e :: es => sysRun (sysStep s e) es

/-- C3 counterexample: start a recording (arming an auto-stop thread),
stop it manually, start a NEW recording, and then let the stale auto-stop
thread of the FIRST recording wake up.  `stop_recording` only checks
`is_recording`, which is true again, so the stale thread issues a second
backend `StopRecording` call — two stop calls in total, cutting the new
recording short. -/
theorem C3_stale_timer_counterexample :
    sysRun sysInit
        [.detect ⟨false, false, false⟩, .manual_stop false,
          .detect ⟨false, false, false⟩, .timer_fire false] =
      ⟨⟨false⟩, 1, 2, 2⟩ ∧
    ¬ (sysRun sysInit
        [.detect ⟨false, false, false⟩, .manual_stop false,
          .detect ⟨false, false, false⟩, .timer_fire false]).stopCalls ≤ 1 := by
  decide

/-- C3 (amended): if NO new recording is started between the manual stop
and the stale auto-stop thread waking up, the stale thread's
`stop_recording` finds `is_recording = false` and makes no backend call:
the manual stop's single `StopRecording` call remains the only one.  (With
an intervening new recording the stale thread does fire a second call —
the source has no timer cancellation.) -/
theorem C3_stale_timer_harmless_when_idle (b : Backend) (sr : Bool)
    (hs : b.statusRaises = false) (ho : b.obsIsRecording = false)
    (hr : b.startRaises = false) :
    (sysRun sysInit [.detect b, .manual_stop false, .timer_fire sr]).stopCalls
      = 1 ∧
    (sysRun sysInit
        [.detect b, .manual_stop false, .timer_fire sr]).obs.is_recording
      = false := by
  cases sr <;>
    simp [sysRun, sysStep, sysInit, start_recording, stop_recording,
      auto_stop_recording, hs, ho, hr]

/-- C3 witness: cooperative backend, stale timer firing after the manual
stop with no new recording in between — one backend stop call in total. -/
theorem C3_stale_timer_harmless_when_idle_witness :
    ((⟨false, false, false⟩ : Backend).statusRaises = false ∧
      (⟨false, false, false⟩ : Backend).obsIsRecording = false ∧
      (⟨false, false, false⟩ : Backend).startRaises = false) ∧
    ((sysRun sysInit
        [.detect ⟨false, false, false⟩, .manual_stop false,
          .timer_fire false]).stopCalls = 1 ∧
      (sysRun sysInit
        [.detect ⟨false, false, false⟩, .manual_stop false,
          .timer_fire false]).obs.is_recording = false) :=
  ⟨⟨rfl, rfl, rfl⟩,
    C3_stale_timer_harmless_when_idle ⟨false, false, false⟩ false rfl rfl rfl⟩

/-- Classification label of an audio detection: `"PEAK"` for the primary
peak-based trigger, `"RMS"` for the backup sustained-sound trigger
(src/audio_detector.py lines 140-146). -/
inductive AudioLabel
  | PEAK
  | RMS
deriving DecidableEq

/-- The audio threshold evaluation of `AudioDetector._detection_loop`
(src/audio_detector.py lines 128-146): `peak_triggered = peak_level >
self.peak_threshold`, `rms_triggered = normalized_rms > self.rms_threshold`;
a detection is emitted iff `peak_triggered or rms_triggered`, labelled
`"PEAK"` when the peak condition holds and `"RMS"` otherwise. -/
def audioEvaluate {α : Type} [LinearOrderedRing α]
    (peak_threshold rms_threshold peak_level normalized_rms : α) :
    Option AudioLabel :=
  let peak_triggered := decide (peak_level > peak_threshold)
  let rms_triggered := decide (normalized_rms > rms_threshold)
  if peak_triggered || rms_triggered then
    some (if peak_triggered then .PEAK else .RMS)
  else none

/-- One iteration of the audio detection loop after the levels of a reading
have been computed (src/audio_detector.py lines 128-153): evaluate the
thresholds, and only if triggered run the cooldown check; the trigger
callback is invoked (first component `some label`) exactly when both pass.
The second component is the updated cooldown state. -/
def audioLoopStep {α : Type} [LinearOrderedRing α]
    (peak_threshold rms_threshold cooldown : α) (s : CooldownState α)
    (peak_level normalized_rms now : α) :
    Option AudioLabel × CooldownState α :=
  match audioEvaluate peak_threshold rms_threshold peak_level normalized_rms
    with
  | none => (none, s)
  | some lbl =>
    let r := tryAccept cooldown s now
    (if r.1 then some lbl else none, r.2)

/-- C8: a reading whose peak level is at most the peak threshold and whose
normalized RMS is at most the RMS threshold produces no detection event:
the trigger callback is not invoked and the cooldown state is untouched. -/
theorem C8_below_thresholds_no_detection {α : Type} [LinearOrderedRing α]
    (peak_threshold rms_threshold cooldown : α) (s : CooldownState α)
    (peak_level normalized_rms now : α)
    (h1 : peak_level ≤ peak_threshold) (h2 : normalized_rms ≤ rms_threshold) :
    audioLoopStep peak_threshold rms_threshold cooldown s
      peak_level normalized_rms now = (none, s) := by
  have hp : decide (peak_level > peak_threshold) = false :=
    decide_eq_false (not_lt.mpr h1)
  have hr : decide (normalized_rms > rms_threshold) = false :=
    decide_eq_false (not_lt.mpr h2)
  simp [audioLoopStep, audioEvaluate, hp, hr]

/-- C8 witness: thresholds 500/10 with levels 100/1 (millifullscale units):
no detection, state unchanged. -/
theorem C8_below_thresholds_no_detection_witness :
    ((100:ℤ) ≤ 500 ∧ (1:ℤ) ≤ 10) ∧
    audioLoopStep (500:ℤ) 10 30 cooldownInit 100 1 40 =
      (none, cooldownInit) :=
  ⟨⟨by decide, by decide⟩,
    C8_below_thresholds_no_detection 500 10 30 cooldownInit 100 1 40
      (by decide) (by decide)⟩

/-- A Python return value that is either `None` or a boolean. -/
inductive PyRet
  | pyNone
  | pyBool (b : Bool)
deriving DecidableEq

/-- Everything observable about one `start_detection` call: the Python
value it returns, the `is_running` flag afterwards, and whether the
detection thread was started. -/
structure StartDetectionResult where
  ret : PyRet
  is_running : Bool
  threadStarted : Bool
deriving DecidableEq

/-- `AudioDetector.start_detection` (src/audio_detector.py lines 70-83) and
`MotionDetector.start_detection` (src/motion_detector.py lines 48-61),
which have identical control flow: if already running, log and `return`
(i.e. `None`); call `initialize_audio` / `initialize_camera`, which catches
device exceptions and yields a boolean — `ok` here; if it failed, `return`
(again `None`); otherwise set `is_running`, start the daemon detection
thread, and fall off the end of the function (returning `None`).  No path
returns a boolean. -/
def start_detection (is_running : Bool) (ok : Bool) : StartDetectionResult :=
  if is_running then ⟨.pyNone, true, false⟩
  else if !ok then ⟨.pyNone, false, false⟩
  else ⟨.pyNone, true, true⟩

/-- C9 counterexample: `start_detection` returns the same value — Python
`None` — when device initialization fails as when it succeeds, so its
return value is NOT distinguishable as failure versus success. -/
theorem C9_start_return_counterexample :
    (start_detection false false).ret = (start_detection false true).ret ∧
    (start_detection false false).ret = PyRet.pyNone := by
  decide

/-- C9 (amended): a failed device initialization does not crash
`start_detection` — the exception is caught inside `initialize_audio` /
`initialize_camera`, which reduces it to the boolean `ok` — and the failure
is observable to the caller through the sampler state (`is_running` stays
false and no detection thread is started), but `start_detection`'s own
return value is `None` on success and failure alike. -/
theorem C9_start_reports_via_state (ok : Bool) :
    (start_detection false ok).ret = PyRet.pyNone ∧
    (start_detection false ok).is_running = ok ∧
    (start_detection false ok).threadStarted = ok := by
  cases ok <;> decide

end ObsMotion
